import Mathlib

/-!
# Verification of the multi-tenant SaaS service layer

A shallow embedding of the TypeScript service layer of the `saas-boilerplate`
repository (tenant service, tenant-user service, tenant-invitation service,
the tenant-aware Prisma client, and the tenant middleware), together with
proofs and refutations of the specification claims about it.

Modelling conventions:
* Database rows become Lean structures.  Opaque unique keys (`uuid` columns)
  become `Nat`, generated from a per-database counter `nextId` (the uniqueness
  of freshly generated ids, which in the source comes from `uuid`, is the
  counter discipline here).  All other columns that the claims mention are
  kept with the source field names.  Opaque JSON documents (`settings`,
  `metadata`) and the bookkeeping timestamps (`created_at`, `updated_at`,
  `last_login_at`) are not modelled: no claim mentions them.
* Wall-clock time (`new Date()`) becomes an explicit `now : Nat` parameter;
  `expires_at` is a `Nat` on the same clock, with one unit per day, so the
  seven-day invitation expiry becomes `now + 7`.
* `randomBytes(32).toString("hex")` becomes an explicit `token` parameter:
  the token is an opaque random input of the operation.
* Prisma's interactive `$transaction(async (tx) => ...)` runs its callback
  and, if the callback throws, rolls the whole transaction back.  This is
  modelled by `transact`: an operation body is a function returning the state
  it reached together with its outcome, and `transact` discards the reached
  state when the outcome is an error.
* Thrown exceptions become `Except TenantError`.  Zod validation failures are
  folded into the same error type as `TenantError.validation`; the zod schema
  checks that the claims can depend on (the role / status / invitation-status
  enums and the tenant slug and name formats) are modelled, while the opaque
  string-format checks (uuid shape, email shape) always hold of the `Nat` /
  `String` carriers and are not repeated.
-/

namespace SaaS

/-- `tenants` row (`database` schema; fields used by `tenant-service.ts`). -/
structure TenantRow where
  id : Nat
  slug : String
  name : String
  status : String := "active"
  deriving Repr, DecidableEq

/-- `tenant_users` row (a membership). -/
structure TenantUserRow where
  id : Nat
  tenant_id : Nat
  clerk_user_id : String
  email : String
  first_name : Option String := none
  last_name : Option String := none
  role : String := "member"
  status : String := "active"
  deriving Repr, DecidableEq

/-- `tenant_invitations` row. -/
structure InvitationRow where
  id : Nat
  tenant_id : Nat
  email : String
  role : String := "member"
  invited_by : Option Nat := none
  token : String
  status : String := "pending"
  expires_at : Nat
  accepted_at : Option Nat := none
  deriving Repr, DecidableEq

/-- The persistent state: the three tables the claims touch, plus the
fresh-id counter standing in for uuid generation. -/
structure DB where
  tenants : List TenantRow := []
  tenant_users : List TenantUserRow := []
  tenant_invitations : List InvitationRow := []
  nextId : Nat := 0
  deriving Repr, DecidableEq

/-- The error taxonomy of `tenant-errors.ts` (plus zod failures folded in as
`validation`). -/
inductive TenantError where
  | businessRule (msg : String)
  | userNotFound (msg : String)
  | notFound (msg : String)
  | validation (msg : String)
  | contextMissing (msg : String)
  deriving Repr, DecidableEq

/-- Decidable equality for operation outcomes (used only to evaluate the
model at concrete inputs). -/
instance {e a : Type} [DecidableEq e] [DecidableEq a] : DecidableEq (Except e a) :=
  fun x y =>
    match x, y with
    | Except.ok v, Except.ok w =>
        if h : v = w then Decidable.isTrue (congrArg Except.ok h)
        else Decidable.isFalse fun hc => h (Except.ok.inj hc)
    | Except.error v, Except.error w =>
        if h : v = w then Decidable.isTrue (congrArg Except.error h)
        else Decidable.isFalse fun hc => h (Except.error.inj hc)
    | Except.ok _, Except.error _ => Decidable.isFalse fun hc => Except.noConfusion hc
    | Except.error _, Except.ok _ => Decidable.isFalse fun hc => Except.noConfusion hc

/-- Prisma interactive `$transaction`: run the body; if it threw, the state it
reached is rolled back and the error propagates; otherwise the reached state
commits. -/
def transact {α : Type} (body : DB → DB × Except TenantError α) (db : DB) :
    DB × Except TenantError α :=
  match (body db).2 with
  | Except.ok a => ((body db).1, Except.ok a)
  | Except.error e => (db, Except.error e)

/-- `prisma.tenant_users.update({ where: { id }, data })`: rewrite the rows
whose `id` matches. -/
def usersUpdate (db : DB) (userId : Nat) (f : TenantUserRow → TenantUserRow) : DB :=
  { db with tenant_users := db.tenant_users.map fun u => if u.id == userId then f u else u }

/-- `prisma.tenant_invitations.update({ where: { id }, data })`. -/
def invitationsUpdate (db : DB) (invId : Nat) (f : InvitationRow → InvitationRow) : DB :=
  { db with tenant_invitations :=
      db.tenant_invitations.map fun i => if i.id == invId then f i else i }

/-- `prisma.tenants.update({ where: { id }, data })`. -/
def tenantsUpdate (db : DB) (tenantId : Nat) (f : TenantRow → TenantRow) : DB :=
  { db with tenants := db.tenants.map fun t => if t.id == tenantId then f t else t }

/-! ## Validation layer (`tenant-constraints.ts`) -/

/-- `TenantRoleEnum = z.enum(["owner", "admin", "member", "viewer"])`. -/
def isValidRole (r : String) : Bool :=
  r == "owner" || r == "admin" || r == "member" || r == "viewer"

/-- `TenantStatusEnum = z.enum(["active", "suspended", "cancelled"])` (used for
both tenants and tenant users). -/
def isValidStatus (s : String) : Bool :=
  s == "active" || s == "suspended" || s == "cancelled"

/-- `InvitationStatusEnum = z.enum(["pending", "accepted", "expired", "revoked"])`. -/
def isValidInvitationStatus (s : String) : Bool :=
  s == "pending" || s == "accepted" || s == "expired" || s == "revoked"

/-- The payload of `TenantUserSchema` after parsing (`TenantUserData`). -/
structure TenantUserData where
  tenantId : Nat
  clerkUserId : String
  email : String
  firstName : Option String := none
  lastName : Option String := none
  role : String := "member"
  status : String := "active"
  deriving Repr, DecidableEq

/-- The enum checks of `TenantUserSchema` (`validateTenantUser`); the uuid and
email format checks hold of the carriers and are not repeated. -/
def validateTenantUserOk (d : TenantUserData) : Bool :=
  isValidRole d.role && isValidStatus d.status

/-- The payload of `TenantSchema` (`TenantData`). -/
structure TenantData where
  slug : String
  name : String
  status : String := "active"
  deriving Repr, DecidableEq

/-- One character of the slug regex `^[a-z0-9-]+$`. -/
def isSlugChar (c : Char) : Bool := c.isLower || c.isDigit || c == '-'

/-- `validateTenant` = `TenantSchema.parse`: slug is 2 to 50 characters of
lowercase letters, digits and hyphens; name is 1 to 100 characters; status is
one of the tenant status enum. -/
def validateTenant (d : TenantData) : Except TenantError TenantData :=
  if d.slug.length < 2 then
    Except.error (TenantError.validation "Slug must be at least 2 characters")
  else if 50 < d.slug.length then
    Except.error (TenantError.validation "Slug must be no more than 50 characters")
  else if !(d.slug.toList.all isSlugChar) then
    Except.error
      (TenantError.validation "Slug must contain only lowercase letters, numbers, and hyphens")
  else if d.name.length < 1 then
    Except.error (TenantError.validation "Name is required")
  else if 100 < d.name.length then
    Except.error (TenantError.validation "Name must be no more than 100 characters")
  else if !(isValidStatus d.status) then
    Except.error (TenantError.validation "Invalid status")
  else
    Except.ok d

/-! ## `TenantUserService` (`tenant-user-service.ts`) -/

/-- `TenantUserService.enforceBusinessRules` (runs before the `createUser`
transaction, against `this.prisma.tenant_users`): only one owner per tenant,
no duplicate `(tenant, clerk_user_id)`, no duplicate `(tenant, email)`. -/
def enforceBusinessRules (d : TenantUserData) (db : DB) : Except TenantError Unit :=
  if d.role == "owner" &&
      (db.tenant_users.find? fun u =>
        u.tenant_id == d.tenantId && u.role == "owner").isSome then
    Except.error (TenantError.businessRule "Tenant already has an owner")
  else if (db.tenant_users.find? fun u =>
      u.tenant_id == d.tenantId && u.clerk_user_id == d.clerkUserId).isSome then
    Except.error (TenantError.businessRule "User already exists in this tenant")
  else if (db.tenant_users.find? fun u =>
      u.tenant_id == d.tenantId && u.email == d.email).isSome then
    Except.error (TenantError.businessRule "Email already exists in this tenant")
  else
    Except.ok ()

/-- The `$transaction` callback of `createUser`: re-check the
`(tenant, clerk_user_id)` duplicate, then insert the row. -/
def createUserBody (d : TenantUserData) (db : DB) : DB × Except TenantError TenantUserRow :=
  if (db.tenant_users.find? fun u =>
      u.tenant_id == d.tenantId && u.clerk_user_id == d.clerkUserId).isSome then
    (db, Except.error (TenantError.businessRule "User already exists in this tenant"))
  else
    let row : TenantUserRow :=
      { id := db.nextId, tenant_id := d.tenantId, clerk_user_id := d.clerkUserId,
        email := d.email, first_name := d.firstName, last_name := d.lastName,
        role := d.role, status := d.status }
    ({ db with tenant_users := db.tenant_users ++ [row], nextId := db.nextId + 1 },
      Except.ok row)

/-- `TenantUserService.createUser`: zod validation, `enforceBusinessRules`,
then the insert transaction. -/
def createUser (d : TenantUserData) (db : DB) : DB × Except TenantError TenantUserRow :=
  if validateTenantUserOk d then
    match enforceBusinessRules d db with
    | Except.error e => (db, Except.error e)
    | Except.ok _ => transact (createUserBody d) db
  else
    (db, Except.error (TenantError.validation "Invalid tenant user data"))

/-- `TenantUserService.enforceOwnershipRules` (runs inside the
`updateUserRole` transaction): assigning `owner` requires that no other row of
the tenant is an owner; removing `owner` requires at least one other admin in
the tenant. -/
def enforceOwnershipRules (db : DB) (userId : Nat) (newRole : String) (tenantId : Nat) :
    Except TenantError Unit :=
  if newRole == "owner" then
    if (db.tenant_users.find? fun u =>
        u.tenant_id == tenantId && u.role == "owner" && !(u.id == userId)).isSome then
      Except.error
        (TenantError.businessRule "Cannot assign owner role - tenant already has an owner")
    else
      Except.ok ()
  else
    if db.tenant_users.countP (fun u =>
        u.tenant_id == tenantId && u.role == "admin" && !(u.id == userId)) == 0 then
      Except.error
        (TenantError.businessRule "Cannot remove owner role - tenant must have at least one admin")
    else
      Except.ok ()

/-- The `$transaction` callback of `updateUserRole`. -/
def updateUserRoleBody (userId : Nat) (validRole : String) (db : DB) :
    DB × Except TenantError TenantUserRow :=
  match db.tenant_users.find? (fun u => u.id == userId) with
  | none => (db, Except.error (TenantError.userNotFound "User not found"))
  | some currentUser =>
    if validRole == "owner" || currentUser.role == "owner" then
      match enforceOwnershipRules db userId validRole currentUser.tenant_id with
      | Except.error e => (db, Except.error e)
      | Except.ok _ =>
          (usersUpdate db userId (fun u => { u with role := validRole }),
            Except.ok { currentUser with role := validRole })
    else
      (usersUpdate db userId (fun u => { u with role := validRole }),
        Except.ok { currentUser with role := validRole })

/-- `TenantUserService.updateUserRole`: validate the role, then transact. -/
def updateUserRole (userId : Nat) (newRole : String) (db : DB) :
    DB × Except TenantError TenantUserRow :=
  if isValidRole newRole then
    transact (updateUserRoleBody userId newRole) db
  else
    (db, Except.error (TenantError.validation "Invalid role"))

/-- The `$transaction` callback of `updateUserStatus`: suspending an owner is
refused when the tenant has exactly one active owner. -/
def updateUserStatusBody (userId : Nat) (validStatus : String) (db : DB) :
    DB × Except TenantError TenantUserRow :=
  match db.tenant_users.find? (fun u => u.id == userId) with
  | none => (db, Except.error (TenantError.userNotFound "User not found"))
  | some currentUser =>
    if validStatus == "suspended" && currentUser.role == "owner" &&
        db.tenant_users.countP (fun u =>
          u.tenant_id == currentUser.tenant_id && u.role == "owner" &&
            u.status == "active") == 1 then
      (db, Except.error (TenantError.businessRule "Cannot suspend the last active owner"))
    else
      (usersUpdate db userId (fun u => { u with status := validStatus }),
        Except.ok { currentUser with status := validStatus })

/-- `TenantUserService.updateUserStatus`: validate the status, then transact. -/
def updateUserStatus (userId : Nat) (newStatus : String) (db : DB) :
    DB × Except TenantError TenantUserRow :=
  if isValidStatus newStatus then
    transact (updateUserStatusBody userId newStatus) db
  else
    (db, Except.error (TenantError.validation "Invalid status"))

/-- The `$transaction` callback of `deleteUser`: deleting an owner is refused
when the tenant has exactly one owner. -/
def deleteUserBody (userId : Nat) (db : DB) : DB × Except TenantError TenantUserRow :=
  match db.tenant_users.find? (fun u => u.id == userId) with
  | none => (db, Except.error (TenantError.userNotFound "User not found"))
  | some currentUser =>
    if currentUser.role == "owner" &&
        db.tenant_users.countP (fun u =>
          u.tenant_id == currentUser.tenant_id && u.role == "owner") == 1 then
      (db, Except.error (TenantError.businessRule "Cannot delete the last owner"))
    else
      ({ db with tenant_users := db.tenant_users.filter fun u => !(u.id == userId) },
        Except.ok currentUser)

/-- `TenantUserService.deleteUser`. -/
def deleteUser (userId : Nat) (db : DB) : DB × Except TenantError TenantUserRow :=
  transact (deleteUserBody userId) db

/-! ## `TenantService` (`tenant-service.ts`) -/

/-- The `$transaction` callback of `createTenant`: refuse a taken slug, insert
the tenant, insert the owner membership. -/
def createTenantBody (v : TenantData) (ownerClerkUserId ownerEmail : String) (db : DB) :
    DB × Except TenantError (TenantRow × TenantUserRow) :=
  match db.tenants.find? (fun t => t.slug == v.slug) with
  | some _ => (db, Except.error (TenantError.businessRule "Tenant slug already exists"))
  | none =>
    let tenant : TenantRow := { id := db.nextId, slug := v.slug, name := v.name, status := v.status }
    let db1 : DB := { db with tenants := db.tenants ++ [tenant], nextId := db.nextId + 1 }
    let ownerUser : TenantUserRow :=
      { id := db1.nextId, tenant_id := tenant.id, clerk_user_id := ownerClerkUserId,
        email := ownerEmail, role := "owner", status := "active" }
    ({ db1 with tenant_users := db1.tenant_users ++ [ownerUser], nextId := db1.nextId + 1 },
      Except.ok (tenant, ownerUser))

/-- `TenantService.createTenant`: zod validation, then the two inserts in one
transaction. -/
def createTenant (d : TenantData) (ownerClerkUserId ownerEmail : String) (db : DB) :
    DB × Except TenantError (TenantRow × TenantUserRow) :=
  match validateTenant d with
  | Except.error e => (db, Except.error e)
  | Except.ok v => transact (createTenantBody v ownerClerkUserId ownerEmail) db

/-- The tenant row `createTenant` inserts (spelled out for the proofs). -/
def newTenantRow (d : TenantData) (db : DB) : TenantRow :=
  { id := db.nextId, slug := d.slug, name := d.name, status := d.status }

/-- The owner membership `createTenant` inserts (spelled out for the proofs). -/
def newOwnerRow (oc oe : String) (db : DB) : TenantUserRow :=
  { id := db.nextId + 1, tenant_id := db.nextId, clerk_user_id := oc, email := oe,
    role := "owner", status := "active" }

/-- The state `createTenant` commits on its success path (spelled out for the
proofs). -/
def createTenantResultDB (d : TenantData) (oc oe : String) (db : DB) : DB :=
  { db with tenants := db.tenants ++ [newTenantRow d db],
            tenant_users := db.tenant_users ++ [newOwnerRow oc oe db],
            nextId := db.nextId + 1 + 1 }

/-- `TenantService.getTenantBySlug`. -/
def getTenantBySlug (slug : String) (db : DB) : Except TenantError TenantRow :=
  match db.tenants.find? (fun t => t.slug == slug) with
  | none => Except.error (TenantError.notFound "Tenant not found")
  | some t => Except.ok t

/-- The `$transaction` callback of `suspendTenant`. -/
def suspendTenantBody (tenantId : Nat) (db : DB) : DB × Except TenantError TenantRow :=
  match db.tenants.find? (fun t => t.id == tenantId) with
  | none => (db, Except.error (TenantError.notFound "Tenant not found"))
  | some existingTenant =>
    if existingTenant.status == "suspended" then
      (db, Except.error (TenantError.businessRule "Tenant is already suspended"))
    else
      (tenantsUpdate db tenantId (fun t => { t with status := "suspended" }),
        Except.ok { existingTenant with status := "suspended" })

/-- `TenantService.suspendTenant`. -/
def suspendTenant (tenantId : Nat) (db : DB) : DB × Except TenantError TenantRow :=
  transact (suspendTenantBody tenantId) db

/-- The `$transaction` callback of `activateTenant`. -/
def activateTenantBody (tenantId : Nat) (db : DB) : DB × Except TenantError TenantRow :=
  match db.tenants.find? (fun t => t.id == tenantId) with
  | none => (db, Except.error (TenantError.notFound "Tenant not found"))
  | some existingTenant =>
    if existingTenant.status == "active" then
      (db, Except.error (TenantError.businessRule "Tenant is already active"))
    else
      (tenantsUpdate db tenantId (fun t => { t with status := "active" }),
        Except.ok { existingTenant with status := "active" })

/-- `TenantService.activateTenant`. -/
def activateTenant (tenantId : Nat) (db : DB) : DB × Except TenantError TenantRow :=
  transact (activateTenantBody tenantId) db

/-- The `$transaction` callback of `deleteTenant`: refuses when the tenant
still has users; on success the cascade configured in the schema removes the
dependent rows with the tenant. -/
def deleteTenantBody (tenantId : Nat) (db : DB) : DB × Except TenantError TenantRow :=
  match db.tenants.find? (fun t => t.id == tenantId) with
  | none => (db, Except.error (TenantError.notFound "Tenant not found"))
  | some existingTenant =>
    if 0 < db.tenant_users.countP (fun u => u.tenant_id == tenantId) then
      (db, Except.error (TenantError.businessRule "Cannot delete tenant with active users"))
    else
      ({ db with
          tenants := db.tenants.filter fun t => !(t.id == tenantId),
          tenant_users := db.tenant_users.filter fun u => !(u.tenant_id == tenantId),
          tenant_invitations := db.tenant_invitations.filter fun i => !(i.tenant_id == tenantId) },
        Except.ok existingTenant)

/-- `TenantService.deleteTenant`. -/
def deleteTenant (tenantId : Nat) (db : DB) : DB × Except TenantError TenantRow :=
  transact (deleteTenantBody tenantId) db

/-! ## `TenantInvitationService` (`tenant-user-service.ts`, second class) -/

/-- The fixed invitation lifetime: `expiresAt.setDate(expiresAt.getDate() + 7)`
(one time unit per day). -/
def sevenDays : Nat := 7

/-- The `$transaction` callback of `createInvitation`. -/
def createInvitationBody (tenantId : Nat) (email role : String) (invitedBy : Option Nat)
    (token : String) (expiresAt : Nat) (db : DB) : DB × Except TenantError InvitationRow :=
  if (db.tenant_invitations.find? fun i =>
      i.tenant_id == tenantId && i.email == email && i.status == "pending").isSome then
    (db, Except.error (TenantError.businessRule "User already has a pending invitation"))
  else if (db.tenant_users.find? fun u =>
      u.tenant_id == tenantId && u.email == email).isSome then
    (db, Except.error (TenantError.businessRule "User is already a member of this tenant"))
  else if role == "owner" &&
      (db.tenant_users.find? fun u =>
        u.tenant_id == tenantId && u.role == "owner").isSome then
    (db, Except.error (TenantError.businessRule "Tenant already has an owner"))
  else
    let inv : InvitationRow :=
      { id := db.nextId, tenant_id := tenantId, email := email, role := role,
        invited_by := invitedBy, token := token, status := "pending",
        expires_at := expiresAt }
    ({ db with tenant_invitations := db.tenant_invitations ++ [inv], nextId := db.nextId + 1 },
      Except.ok inv)

/-- `TenantInvitationService.createInvitation`: generate the token (an input
here), fix the expiry at `now + 7` days, zod-validate, then transact. -/
def createInvitation (tenantId : Nat) (email role : String) (invitedBy : Option Nat)
    (token : String) (now : Nat) (db : DB) : DB × Except TenantError InvitationRow :=
  if !(isValidRole role) then
    (db, Except.error (TenantError.validation "Invalid invitation data"))
  else if token.length == 0 then
    (db, Except.error (TenantError.validation "Token is required"))
  else if now + sevenDays ≤ now then
    (db, Except.error (TenantError.validation "Expiration date must be in the future"))
  else
    transact (createInvitationBody tenantId email role invitedBy token (now + sevenDays)) db

/-- The `$transaction` callback of `acceptInvitation`.  Note: on the
past-expiry path the code first updates the invitation status to `expired`
and then throws, inside the same transaction. -/
def acceptInvitationBody (invitationId : Nat) (clerkUserId : String) (now : Nat) (db : DB) :
    DB × Except TenantError TenantUserRow :=
  match db.tenant_invitations.find? (fun i => i.id == invitationId) with
  | none => (db, Except.error (TenantError.businessRule "Invalid or expired invitation"))
  | some invitation =>
    if !(invitation.status == "pending") then
      (db, Except.error (TenantError.businessRule "Invalid or expired invitation"))
    else if invitation.expires_at < now then
      (invitationsUpdate db invitationId (fun i => { i with status := "expired" }),
        Except.error (TenantError.businessRule "Invitation has expired"))
    else if (db.tenant_users.find? fun u =>
        u.tenant_id == invitation.tenant_id && u.clerk_user_id == clerkUserId).isSome then
      (db, Except.error (TenantError.businessRule "User is already a member of this tenant"))
    else if invitation.role == "owner" &&
        (db.tenant_users.find? fun u =>
          u.tenant_id == invitation.tenant_id && u.role == "owner").isSome then
      (db, Except.error (TenantError.businessRule "Tenant already has an owner"))
    else
      let user : TenantUserRow :=
        { id := db.nextId, tenant_id := invitation.tenant_id,
          clerk_user_id := clerkUserId, email := invitation.email,
          role := invitation.role, status := "active" }
      let db1 : DB :=
        { db with tenant_users := db.tenant_users ++ [user], nextId := db.nextId + 1 }
      (invitationsUpdate db1 invitationId
          (fun i => { i with status := "accepted", accepted_at := some now }),
        Except.ok user)

/-- `TenantInvitationService.acceptInvitation`. -/
def acceptInvitation (invitationId : Nat) (clerkUserId : String) (now : Nat) (db : DB) :
    DB × Except TenantError TenantUserRow :=
  transact (acceptInvitationBody invitationId clerkUserId now) db

/-- The `$transaction` callback of `revokeInvitation`. -/
def revokeInvitationBody (invitationId : Nat) (db : DB) : DB × Except TenantError InvitationRow :=
  match db.tenant_invitations.find? (fun i => i.id == invitationId) with
  | none => (db, Except.error (TenantError.notFound "Invitation not found"))
  | some invitation =>
    if !(invitation.status == "pending") then
      (db, Except.error (TenantError.businessRule "Only pending invitations can be revoked"))
    else
      (invitationsUpdate db invitationId (fun i => { i with status := "revoked" }),
        Except.ok { invitation with status := "revoked" })

/-- `TenantInvitationService.revokeInvitation`. -/
def revokeInvitation (invitationId : Nat) (db : DB) : DB × Except TenantError InvitationRow :=
  transact (revokeInvitationBody invitationId) db

/-! ## `TenantAwarePrismaClient` (`prisma/client.ts`)

The PostgreSQL session: the session-local setting `app.current_tenant_id`
(the empty string is the unset/cleared value, as produced by
`set_config('app.current_tenant_id', '', true)`) together with the persistent
state reachable through the session. -/

/-- A database session. -/
structure Session where
  current_tenant_id : String := ""
  db : DB := {}
  deriving Repr, DecidableEq

/-- `SELECT set_config('app.current_tenant_id', v, true)`. -/
def setConfigTenant (s : Session) (v : String) : Session :=
  { s with current_tenant_id := v }

/-- `TenantAwarePrismaClient.withTenantContext`: set the session-local tenant
setting, run the callback (an arbitrary session transformer that may succeed
or throw), and in the `finally` block reset the setting to the empty string
on both exit paths. -/
def withTenantContext {α : Type} (tenantId : String)
    (callback : Session → Session × Except TenantError α) (s : Session) :
    Session × Except TenantError α :=
  let s1 := setConfigTenant s tenantId
  match callback s1 with
  | (s2, r) => (setConfigTenant s2 "", r)

/-- The caller-visible payload of `tenantUsers.create({ data })`.  The caller
may or may not put a `tenant_id` of its own into the payload. -/
structure CreateUserArgs where
  tenant_id : Option Nat := none
  clerk_user_id : String
  email : String
  first_name : Option String := none
  last_name : Option String := none
  role : String := "member"
  status : String := "active"
  deriving Repr, DecidableEq

/-- The `create` override of the `tenantUsers` getter:
`executeWithTenantContext` first requires `this.tenantId` to be set (else it
throws), and the row is created from
`{ ...args.data, tenant_id: this.tenantId }` — the spread is overridden, so
the stored `tenant_id` is the scope value whatever the payload carried. -/
def tenantUsersCreate (tenantCtx : Option Nat) (args : CreateUserArgs) (db : DB) :
    Except TenantError (DB × TenantUserRow) :=
  match tenantCtx with
  | none =>
      Except.error (TenantError.contextMissing
        "Tenant context not set. Call setTenantContext() first.")
  | some tid =>
      let row : TenantUserRow :=
        { id := db.nextId, tenant_id := tid, clerk_user_id := args.clerk_user_id,
          email := args.email, first_name := args.first_name,
          last_name := args.last_name, role := args.role, status := args.status }
      Except.ok ({ db with tenant_users := db.tenant_users ++ [row], nextId := db.nextId + 1 },
        row)

/-! ## Table-access instrumentation for the scope claims

The services access tables through the raw snake-case Prisma delegates
(`tx.tenant_users`, `this.prisma.tenant_users`, `tx.tenants`, ...), never
through the camel-case wrappers (`tenantUsers`, ...) that route through
`executeWithTenantContext`/`withTenantContext`.  Hence no
`set_config('app.current_tenant_id', ...)` is issued anywhere inside a
service operation, and every table access it performs observes whatever
ambient value the session-local setting already had (`scope` below);
`setTenantContext` only writes the in-process `this.tenantId` field and does
not touch the session.  The traces below record, in source order, each table
access of an operation together with that ambient setting. -/

/-- One table access, tagged with the value the session-local tenant setting
had when the access ran. -/
structure TableAccess where
  table : String
  scope : String
  deriving Repr, DecidableEq

/-- The tables the row-level-security policies gate on `app.current_tenant_id`
(every table except `tenants`, per the schema and the client overrides). -/
def tenantScopedTables : List String :=
  ["tenant_users", "tenant_invitations", "audit_logs", "tenant_settings"]

/-- Tag every access of a trace with the session setting it ran under.  The
services issue no `set_config` of their own, so the whole trace of one
operation runs under the one ambient value. -/
def withScope (scope : String) (tables : List String) : List TableAccess :=
  tables.map fun t => { table := t, scope := scope }

/-- The tables touched by `TenantService.createTenant`, in source order:
`tx.tenants.findUnique`, then on the success path `tx.tenants.create` and
`tx.tenant_users.create`, all against the raw delegates. -/
def createTenantTables (d : TenantData) (db : DB) : List String :=
  match validateTenant d with
  | Except.error _ => []
  | Except.ok v =>
    match db.tenants.find? (fun t => t.slug == v.slug) with
    | some _ => ["tenants"]
    | none => ["tenants", "tenants", "tenant_users"]

/-- The table accesses performed by `TenantService.createTenant` under the
ambient session scope. -/
def createTenantAccesses (d : TenantData) (scope : String) (db : DB) : List TableAccess :=
  withScope scope (createTenantTables d db)

/-- The tables touched by `TenantUserService.createUser`, in source order: the
`enforceBusinessRules` reads against `this.prisma.tenant_users` (before the
transaction begins), then the duplicate re-check and the insert against
`tx.tenant_users`. -/
def createUserTables (d : TenantUserData) (db : DB) : List String :=
  if validateTenantUserOk d then
    if d.role == "owner" &&
        (db.tenant_users.find? fun u =>
          u.tenant_id == d.tenantId && u.role == "owner").isSome then
      ["tenant_users"]
    else if (db.tenant_users.find? fun u =>
        u.tenant_id == d.tenantId && u.clerk_user_id == d.clerkUserId).isSome then
      (if d.role == "owner" then ["tenant_users"] else []) ++ ["tenant_users"]
    else if (db.tenant_users.find? fun u =>
        u.tenant_id == d.tenantId && u.email == d.email).isSome then
      (if d.role == "owner" then ["tenant_users"] else []) ++
        ["tenant_users", "tenant_users"]
    else
      (if d.role == "owner" then ["tenant_users"] else []) ++
        ["tenant_users", "tenant_users", "tenant_users", "tenant_users"]
  else
    []

/-- The table accesses performed by `TenantUserService.createUser` under the
ambient session scope. -/
def createUserAccesses (d : TenantUserData) (scope : String) (db : DB) : List TableAccess :=
  withScope scope (createUserTables d db)

/-! ## Tenant middleware (`middleware/tenant.ts`) -/

/-- `getRolePermissions`: the static role-to-permission record of
`middleware/tenant.ts`, looked up by the membership role string with `[]` as
the fallback for keys the record does not contain.  The record keys are
`admin`, `user` and `viewer`. -/
def getRolePermissions (role : String) : List String :=
  if role == "admin" then
    ["tenant:read", "tenant:update", "tenant:delete",
     "user:read", "user:create", "user:update", "user:delete",
     "invitation:create", "invitation:delete",
     "settings:read", "settings:update", "audit:read"]
  else if role == "user" then
    ["tenant:read", "user:read", "settings:read"]
  else if role == "viewer" then
    ["tenant:read", "user:read"]
  else
    []

/-- The `TenantContext` returned by the middleware. -/
structure TenantContext where
  tenant : TenantRow
  user : TenantUserRow
  permissions : List String
  deriving Repr, DecidableEq

/-- `getTenantContext`, from the already-extracted slug on: load the tenant by
slug, require an authenticated caller, look the membership up by
`(tenant_id, clerk_user_id)` — with no status filter — and attach the
role-derived permissions.  Errors carry the thrown `Error` messages. -/
def getTenantContext (tenantSlug : String) (authUserId : Option String) (db : DB) :
    Except String TenantContext :=
  match db.tenants.find? (fun t => t.slug == tenantSlug) with
  | none => Except.error ("Tenant not found: " ++ tenantSlug)
  | some tenant =>
    match authUserId with
    | none => Except.error "User authentication required"
    | some userId =>
      match db.tenant_users.find? (fun u =>
          u.tenant_id == tenant.id && u.clerk_user_id == userId) with
      | none => Except.error ("User not found in tenant: " ++ tenantSlug)
      | some tenantUser =>
          Except.ok { tenant := tenant, user := tenantUser,
                      permissions := getRolePermissions tenantUser.role }

/-- `validateTenantAccess`: the same membership lookup but filtered on
`status: "active"`; returns the membership or `null`. -/
def validateTenantAccess (tenantId : Nat) (clerkUserId : String) (db : DB) :
    Option TenantUserRow :=
  db.tenant_users.find? fun u =>
    u.tenant_id == tenantId && u.clerk_user_id == clerkUserId && u.status == "active"

/-! ## Operation alphabets for the sequence claims -/

/-- The four `TenantUserService` mutations of the single-owner claim. -/
inductive UserOp where
  | create (d : TenantUserData)
  | updateRole (userId : Nat) (newRole : String)
  | updateStatus (userId : Nat) (newStatus : String)
  | delete (userId : Nat)
  deriving Repr, DecidableEq

/-- Run one `UserOp`. -/
def runUserOp (op : UserOp) (db : DB) : DB × Except TenantError TenantUserRow :=
  match op with
  | UserOp.create d => createUser d db
  | UserOp.updateRole userId newRole => updateUserRole userId newRole db
  | UserOp.updateStatus userId newStatus => updateUserStatus userId newStatus db
  | UserOp.delete userId => deleteUser userId db

/-- Run a sequence of `UserOp`s, keeping the state each one leaves behind
(failed operations leave the state unchanged). -/
def runUserOps (ops : List UserOp) (db : DB) : DB :=
  ops.foldl (fun acc op => (runUserOp op acc).1) db

/-- Drop an operation result to its state-and-outcome part. -/
def mutResult {α : Type} (r : DB × Except TenantError α) : DB × Except TenantError Unit :=
  (r.1, r.2.map fun _ => ())

/-- The multi-step mutations of the rollback claim. -/
inductive MutOp where
  | createTenant (d : TenantData) (ownerClerkUserId ownerEmail : String)
  | createUser (d : TenantUserData)
  | createInvitation (tenantId : Nat) (email role : String) (invitedBy : Option Nat)
      (token : String)
  | acceptInvitation (invitationId : Nat) (clerkUserId : String)
  | revokeInvitation (invitationId : Nat)
  | deleteTenant (tenantId : Nat)
  deriving Repr, DecidableEq

/-- Run one `MutOp` at time `now`. -/
def runMutOp (op : MutOp) (now : Nat) (db : DB) : DB × Except TenantError Unit :=
  match op with
  | MutOp.createTenant d oc oe => mutResult (createTenant d oc oe db)
  | MutOp.createUser d => mutResult (createUser d db)
  | MutOp.createInvitation tid email role invitedBy token =>
      mutResult (createInvitation tid email role invitedBy token now db)
  | MutOp.acceptInvitation invId clerk => mutResult (acceptInvitation invId clerk now db)
  | MutOp.revokeInvitation invId => mutResult (revokeInvitation invId db)
  | MutOp.deleteTenant tid => mutResult (deleteTenant tid db)

/-- Memberships of one tenant with `role = "owner"`. -/
def ownerCount (db : DB) (tid : Nat) : Nat :=
  db.tenant_users.countP fun u => u.tenant_id == tid && u.role == "owner"

/-- Well-formedness of the membership table: the row ids are pairwise
distinct and below the fresh-id counter (the uuid discipline). -/
def DB.UsersWf (db : DB) : Prop :=
  (db.tenant_users.map fun u => u.id).Nodup ∧ ∀ u ∈ db.tenant_users, u.id < db.nextId

/-- The single-owner invariant: every tenant has at most one owner row. -/
def OwnerAtMostOne (db : DB) : Prop :=
  ∀ tid : Nat, ownerCount db tid ≤ 1

/-! ## Success states of the membership operations, spelled out for proofs -/

/-- The row `createUser` inserts. -/
def newUserRow (d : TenantUserData) (db : DB) : TenantUserRow :=
  { id := db.nextId, tenant_id := d.tenantId, clerk_user_id := d.clerkUserId,
    email := d.email, first_name := d.firstName, last_name := d.lastName,
    role := d.role, status := d.status }

/-- The state `createUser` commits on success. -/
def createUserResultDB (d : TenantUserData) (db : DB) : DB :=
  { db with tenant_users := db.tenant_users ++ [newUserRow d db], nextId := db.nextId + 1 }

/-- The state `updateUserRole` commits on success. -/
def roleUpdateDB (userId : Nat) (r : String) (db : DB) : DB :=
  usersUpdate db userId fun u => { u with role := r }

/-- The state `updateUserStatus` commits on success. -/
def statusUpdateDB (userId : Nat) (st : String) (db : DB) : DB :=
  usersUpdate db userId fun u => { u with status := st }

/-- The state `deleteUser` commits on success. -/
def deleteResultDB (userId : Nat) (db : DB) : DB :=
  { db with tenant_users := db.tenant_users.filter fun u => !(u.id == userId) }

/-! ## Concrete fixtures used by counterexamples and witnesses -/


/-- An active tenant with slug `acme`. -/
def acmeTenant : TenantRow := { id := 0, slug := "acme", name := "Acme Inc" }

/-- The sole owner of `acme`. -/
def acmeOwner : TenantUserRow :=
  { id := 1, tenant_id := 0, clerk_user_id := "ext_1", email := "a@acme.com", role := "owner" }

/-- An admin of `acme`. -/
def acmeAdmin : TenantUserRow :=
  { id := 2, tenant_id := 0, clerk_user_id := "ext_2", email := "b@acme.com", role := "admin" }

/-- A tenant with one owner and one admin. -/
def dbOwnerAdmin : DB := { tenants := [acmeTenant], tenant_users := [acmeOwner, acmeAdmin], nextId := 3 }

/-- A tenant whose sole membership is its owner (no admin). -/
def dbOwnerSolo : DB := { tenants := [acmeTenant], tenant_users := [acmeOwner], nextId := 2 }

/-- A pending invitation whose expiry (time 5) is already past. -/
def staleInvitation : InvitationRow :=
  { id := 1, tenant_id := 0, email := "c@acme.com", token := "tok", expires_at := 5 }

/-- A tenant with a stale pending invitation. -/
def dbStaleInvitation : DB := { tenants := [acmeTenant], tenant_invitations := [staleInvitation], nextId := 2 }

/-- A suspended membership in `acme`. -/
def suspendedMember : TenantUserRow :=
  { id := 1, tenant_id := 0, clerk_user_id := "ext_1", email := "a@acme.com",
    role := "admin", status := "suspended" }

/-- A tenant whose only membership is suspended. -/
def dbSuspendedMember : DB := { tenants := [acmeTenant], tenant_users := [suspendedMember], nextId := 2 }

/-- A suspended tenant with no memberships. -/
def dbSuspendedTenant : DB :=
  { tenants := [{ id := 0, slug := "acme", name := "Acme Inc", status := "suspended" }], nextId := 1 }

/-- The empty database. -/
def emptyDB : DB := {}

/-- A valid creation payload with slug `acme`. -/
def tenantDataAcme : TenantData := { slug := "acme", name := "Acme Inc" }

/-! ## General lemmas about the transaction wrapper -/

/-- A failed transaction leaves the persistent state where it was. -/
theorem transact_fst_of_error {α : Type} (body : DB → DB × Except TenantError α) (db : DB)
    (h : (transact body db).2.isOk = false) : (transact body db).1 = db := by
  cases h2 : (body db).2 <;> simp [transact, h2, Except.isOk, Except.toBool] at h ⊢

/-- A transaction whose body succeeds commits the state the body reached. -/
theorem transact_of_ok {α : Type} (body : DB → DB × Except TenantError α) (db : DB)
    (a : α) (h : (body db).2 = Except.ok a) :
    transact body db = ((body db).1, Except.ok a) := by
  simp [transact, h]

/-- A transaction whose body fails rolls back and propagates the error. -/
theorem transact_of_error {α : Type} (body : DB → DB × Except TenantError α) (db : DB)
    (e : TenantError) (h : (body db).2 = Except.error e) :
    transact body db = (db, Except.error e) := by
  simp [transact, h]

theorem isOk_map {α : Type} (r : Except TenantError α) :
    ((r.map fun _ => ()).isOk) = r.isOk := by
  cases r <;> rfl

/-- A transaction either rolls back to the initial state or commits the
state its body reached. -/
theorem transact_fst_cases {α : Type} (body : DB → DB × Except TenantError α) (db : DB) :
    (transact body db).1 = db ∨ (transact body db).1 = (body db).1 := by
  cases h : (body db).2 <;> simp [transact, h]

/-! ## List lemmas for the single-owner invariant -/

theorem countP_congr_mem {α : Type} {l : List α} {p q : α → Bool}
    (h : ∀ a ∈ l, p a = q a) : l.countP p = l.countP q := by
  induction l with
  | nil => rfl
  | cons a l ih =>
      rw [List.countP_cons, List.countP_cons, h a (by simp),
        ih fun b hb => h b (by simp [hb])]

/-- In a table with pairwise-distinct ids, at most one row matches a given
id. -/
theorem countP_id_le_one {l : List TenantUserRow}
    (h : (l.map fun u => u.id).Nodup) (k : Nat) :
    l.countP (fun u => u.id == k) ≤ 1 := by
  induction l with
  | nil => simp
  | cons a l ih =>
      rw [List.map_cons, List.nodup_cons] at h
      obtain ⟨hna, hnd⟩ := h
      rw [List.countP_cons]
      cases hak : (a.id == k) with
      | false => simpa [hak] using ih hnd
      | true =>
          have hak2 : a.id = k := by simpa using hak
          have hz : l.countP (fun u => u.id == k) = 0 := by
            rw [List.countP_eq_zero]
            intro u hu hup
            have hup2 : u.id = k := by simpa using hup
            exact hna (List.mem_map.mpr ⟨u, hu, by rw [hup2, hak2]⟩)
          simp [hak, hz]

/-- In a table with pairwise-distinct ids, a row sharing the id of the row
`find?` returned is that row. -/
theorem eq_of_mem_id {l : List TenantUserRow} (h : (l.map fun u => u.id).Nodup)
    {cu u : TenantUserRow} {userId : Nat}
    (hfind : l.find? (fun x => x.id == userId) = some cu)
    (hu : u ∈ l) (hid : u.id = userId) : u = cu := by
  have hcumem : cu ∈ l := List.mem_of_find?_eq_some hfind
  have hcuid : cu.id = userId := by simpa using List.find?_some hfind
  exact List.inj_on_of_nodup_map h hu hcumem (by show u.id = cu.id; rw [hid, hcuid])

/-! ## Well-formedness preservation -/

/-- An id-preserving row update keeps the membership table well formed. -/
theorem usersWf_usersUpdate (db : DB) (userId : Nat) (f : TenantUserRow → TenantUserRow)
    (hf : ∀ u, (f u).id = u.id) (h : db.UsersWf) : (usersUpdate db userId f).UsersWf := by
  obtain ⟨hnd, hlt⟩ := h
  constructor
  · show ((db.tenant_users.map fun u => if u.id == userId then f u else u).map
      fun u => u.id).Nodup
    rw [List.map_map]
    have hmap : (db.tenant_users.map ((fun u => u.id) ∘
        fun u => if u.id == userId then f u else u)) = db.tenant_users.map fun u => u.id := by
      refine List.map_congr_left fun u _ => ?_
      by_cases hid : (u.id == userId) = true <;> simp [Function.comp, hid, hf]
    rw [hmap]
    exact hnd
  · intro u hu
    have hu2 : u ∈ db.tenant_users.map fun v => if v.id == userId then f v else v := hu
    obtain ⟨v, hv, rfl⟩ := List.mem_map.mp hu2
    have hidv : (if v.id == userId then f v else v).id = v.id := by
      by_cases hid : (v.id == userId) = true <;> simp [hid, hf]
    show (if v.id == userId then f v else v).id < db.nextId
    rw [hidv]
    exact hlt v hv

/-- Removing rows keeps the membership table well formed. -/
theorem usersWf_delete (db : DB) (userId : Nat) (h : db.UsersWf) :
    (deleteResultDB userId db).UsersWf := by
  obtain ⟨hnd, hlt⟩ := h
  constructor
  · show ((db.tenant_users.filter fun u => !(u.id == userId)).map fun u => u.id).Nodup
    exact hnd.sublist (List.Sublist.map _ (List.filter_sublist _))
  · intro u hu
    have hu2 : u ∈ db.tenant_users.filter fun u => !(u.id == userId) := hu
    exact hlt u (List.mem_of_mem_filter hu2)

/-- Appending a row carrying the fresh id keeps the membership table well
formed under the bumped counter. -/
theorem usersWf_append (db : DB) (row : TenantUserRow) (hrow : row.id = db.nextId)
    (h : db.UsersWf) :
    DB.UsersWf { db with tenant_users := db.tenant_users ++ [row],
                         nextId := db.nextId + 1 } := by
  obtain ⟨hnd, hlt⟩ := h
  constructor
  · show ((db.tenant_users ++ [row]).map fun u => u.id).Nodup
    rw [List.map_append, List.nodup_append]
    refine ⟨hnd, by simp, ?_⟩
    show List.Disjoint _ _
    rw [List.map_singleton, List.disjoint_singleton]
    intro hmem
    obtain ⟨v, hv, hvid⟩ := List.mem_map.mp hmem
    have hvlt := hlt v hv
    rw [hvid, hrow] at hvlt
    exact lt_irrefl _ hvlt
  · intro u hu
    have hu2 : u ∈ db.tenant_users ++ [row] := hu
    rcases List.mem_append.mp hu2 with hmem | hmem
    · exact Nat.lt_succ_of_lt (hlt u hmem)
    · have hur : u = row := by simpa using hmem
      rw [hur, hrow]
      exact Nat.lt_succ_self _

/-! ## Owner-count preservation -/

/-- A status-only update never changes any owner count. -/
theorem ownerCount_statusUpdate (userId : Nat) (st : String) (db : DB) (tid : Nat) :
    ownerCount (statusUpdateDB userId st db) tid = ownerCount db tid := by
  show (db.tenant_users.map fun u => if u.id == userId then { u with status := st } else u).countP
      (fun u => u.tenant_id == tid && u.role == "owner") = _
  rw [List.countP_map]
  refine countP_congr_mem fun u _ => ?_
  by_cases hid : (u.id == userId) = true <;> simp [Function.comp, hid]

/-- Deleting rows never raises an owner count. -/
theorem ownerCount_delete_le (userId : Nat) (db : DB) (tid : Nat) :
    ownerCount (deleteResultDB userId db) tid ≤ ownerCount db tid := by
  show (db.tenant_users.filter fun u => !(u.id == userId)).countP _ ≤ _
  exact (List.filter_sublist _).countP_le _

/-- A role update away from `owner` never raises an owner count. -/
theorem ownerCount_roleUpdate_nonowner_le (userId : Nat) (r : String) (db : DB)
    (hr : (r == "owner") = false) (tid : Nat) :
    ownerCount (roleUpdateDB userId r db) tid ≤ ownerCount db tid := by
  show (db.tenant_users.map fun u => if u.id == userId then { u with role := r } else u).countP
      (fun u => u.tenant_id == tid && u.role == "owner") ≤ _
  rw [List.countP_map]
  refine List.countP_mono_left fun u _ hbp => ?_
  by_cases hid : (u.id == userId) = true
  · simp [Function.comp, hid, hr] at hbp
  · simpa [Function.comp, hid] using hbp

/-- Promoting the looked-up row to `owner` keeps every tenant at one owner at
most, provided ids are distinct and no other row of that tenant is an
owner (the check `enforceOwnershipRules` makes on the owner branch). -/
theorem ownerAtMostOne_roleUpdate_owner (userId : Nat) (db : DB) (cu : TenantUserRow)
    (hnd : (db.tenant_users.map fun u => u.id).Nodup)
    (hfind : db.tenant_users.find? (fun u => u.id == userId) = some cu)
    (hnone : db.tenant_users.find? (fun u =>
      u.tenant_id == cu.tenant_id && u.role == "owner" && !(u.id == userId)) = none)
    (hinv : OwnerAtMostOne db) :
    OwnerAtMostOne (roleUpdateDB userId "owner" db) := by
  intro tid
  have step : ownerCount (roleUpdateDB userId "owner" db) tid =
      db.tenant_users.countP ((fun u => u.tenant_id == tid && u.role == "owner") ∘
        fun u => if u.id == userId then { u with role := "owner" } else u) := by
    show (db.tenant_users.map fun u =>
        if u.id == userId then { u with role := "owner" } else u).countP
      (fun u => u.tenant_id == tid && u.role == "owner") = _
    rw [List.countP_map]
  rw [step]
  by_cases htid : cu.tenant_id = tid
  · refine le_trans (List.countP_mono_left fun u hu hp => ?_) (countP_id_le_one hnd userId)
    by_cases hid : (u.id == userId) = true
    · exact hid
    · exfalso
      simp only [Function.comp] at hp
      rw [if_neg hid] at hp
      simp only [Bool.and_eq_true, beq_iff_eq] at hp
      obtain ⟨hpt, hpr⟩ := hp
      have hidf : (u.id == userId) = false := by
        cases hb : (u.id == userId) with
        | false => rfl
        | true => exact absurd hb hid
      have hfn := List.find?_eq_none.mp hnone u hu
      apply hfn
      simp only [Bool.and_eq_true, beq_iff_eq]
      refine ⟨⟨hpt.trans htid.symm, hpr⟩, ?_⟩
      rw [hidf]
      rfl
  · have heq : db.tenant_users.countP ((fun u => u.tenant_id == tid && u.role == "owner") ∘
        fun u => if u.id == userId then { u with role := "owner" } else u) =
        ownerCount db tid := by
      refine countP_congr_mem fun u hu => ?_
      by_cases hid : (u.id == userId) = true
      · have hucu : u = cu := eq_of_mem_id hnd hfind hu (by simpa using hid)
        subst hucu
        have hft : (u.tenant_id == tid) = false := beq_eq_false_iff_ne.mpr htid
        simp [Function.comp, hid, hft]
      · simp [Function.comp, hid]
    rw [heq]
    exact hinv tid

/-- Inserting the validated row keeps every tenant at one owner at most,
because `enforceBusinessRules` refused an `owner` payload whenever the tenant
already had an owner. -/
theorem ownerAtMostOne_createUserResult (d : TenantUserData) (db : DB)
    (henf : enforceBusinessRules d db = Except.ok ())
    (hinv : OwnerAtMostOne db) :
    OwnerAtMostOne (createUserResultDB d db) := by
  intro tid
  have hcount : ownerCount (createUserResultDB d db) tid =
      ownerCount db tid +
        List.countP (fun u => u.tenant_id == tid && u.role == "owner") [newUserRow d db] := by
    show (db.tenant_users ++ [newUserRow d db]).countP _ = _
    rw [List.countP_append]
    rfl
  rw [hcount]
  cases hrole : (d.role == "owner") with
  | false =>
      have h0 : List.countP (fun u => u.tenant_id == tid && u.role == "owner")
          [newUserRow d db] = 0 := by
        simp [List.countP_cons, newUserRow, hrole]
      rw [h0]
      exact hinv tid
  | true =>
      have hnone : db.tenant_users.find?
          (fun u => u.tenant_id == d.tenantId && u.role == "owner") = none := by
        unfold enforceBusinessRules at henf
        cases hopt : db.tenant_users.find?
            (fun u => u.tenant_id == d.tenantId && u.role == "owner") with
        | none => rfl
        | some w =>
            rw [hopt, hrole] at henf
            simp at henf
      have hz : db.tenant_users.countP
          (fun u => u.tenant_id == d.tenantId && u.role == "owner") = 0 := by
        rw [List.countP_eq_zero]
        exact List.find?_eq_none.mp hnone
      by_cases htid : d.tenantId = tid
      · subst htid
        have h0 : ownerCount db d.tenantId = 0 := hz
        rw [h0]
        have h1 : List.countP (fun u => u.tenant_id == d.tenantId && u.role == "owner")
            [newUserRow d db] ≤ 1 := List.countP_le_length _
        omega
      · have h0 : List.countP (fun u => u.tenant_id == tid && u.role == "owner")
            [newUserRow d db] = 0 := by
          have hft : (d.tenantId == tid) = false := beq_eq_false_iff_ne.mpr htid
          simp [List.countP_cons, newUserRow, hft]
        rw [h0]
        exact hinv tid

/-! ## State characterization of each membership operation -/

/-- `createUser` leaves the state unchanged, or — when validation and all
business-rule checks passed — appends the validated row. -/
theorem createUser_fst_cases (d : TenantUserData) (db : DB) :
    (createUser d db).1 = db ∨
    (enforceBusinessRules d db = Except.ok () ∧
      (createUser d db).1 = createUserResultDB d db) := by
  unfold createUser
  cases hval : validateTenantUserOk d with
  | false => exact Or.inl rfl
  | true =>
    cases henf : enforceBusinessRules d db with
    | error e => exact Or.inl rfl
    | ok v =>
      cases v
      cases hdup : (db.tenant_users.find? fun u =>
          u.tenant_id == d.tenantId && u.clerk_user_id == d.clerkUserId).isSome with
      | true =>
          refine Or.inl ?_
          show (transact (createUserBody d) db).1 = db
          have hbody : (createUserBody d db).2 =
              Except.error (TenantError.businessRule "User already exists in this tenant") := by
            simp [createUserBody, hdup]
          rw [transact_of_error _ _ _ hbody]
      | false =>
          refine Or.inr ⟨rfl, ?_⟩
          show (transact (createUserBody d) db).1 = createUserResultDB d db
          have hbody : createUserBody d db =
              (createUserResultDB d db, Except.ok (newUserRow d db)) := by
            unfold createUserBody
            rw [hdup]
            rfl
          rw [transact_of_ok _ _ _ (by rw [hbody])]
          rw [hbody]

/-- `updateUserRole` leaves the state unchanged, or rewrites the role of the
row it found; on the owner branch the success implies the tenant had no other
owner row. -/
theorem updateUserRole_fst_cases (userId : Nat) (newRole : String) (db : DB) :
    (updateUserRole userId newRole db).1 = db ∨
    ∃ cu, db.tenant_users.find? (fun u => u.id == userId) = some cu ∧
      (updateUserRole userId newRole db).1 = roleUpdateDB userId newRole db ∧
      ((newRole == "owner") = true →
        db.tenant_users.find? (fun u =>
          u.tenant_id == cu.tenant_id && u.role == "owner" && !(u.id == userId)) = none) := by
  unfold updateUserRole
  cases hval : isValidRole newRole with
  | false => exact Or.inl rfl
  | true =>
    cases hfind : db.tenant_users.find? (fun u => u.id == userId) with
    | none =>
        refine Or.inl ?_
        show (transact (updateUserRoleBody userId newRole) db).1 = db
        have hbody : (updateUserRoleBody userId newRole db).2 =
            Except.error (TenantError.userNotFound "User not found") := by
          simp [updateUserRoleBody, hfind]
        rw [transact_of_error _ _ _ hbody]
    | some cu =>
      cases hor : (newRole == "owner" || cu.role == "owner") with
      | false =>
          have hbody : updateUserRoleBody userId newRole db =
              (roleUpdateDB userId newRole db, Except.ok { cu with role := newRole }) := by
            simp [updateUserRoleBody, hfind, hor, roleUpdateDB]
          refine Or.inr ⟨cu, rfl, ?_, ?_⟩
          · show (transact (updateUserRoleBody userId newRole) db).1 = _
            rw [transact_of_ok _ _ _ (by rw [hbody])]
            rw [hbody]
          · intro hno
            rw [hno] at hor
            simp at hor
      | true =>
          cases henf : enforceOwnershipRules db userId newRole cu.tenant_id with
          | error e =>
              refine Or.inl ?_
              show (transact (updateUserRoleBody userId newRole) db).1 = db
              have hbody : (updateUserRoleBody userId newRole db).2 = Except.error e := by
                simp [updateUserRoleBody, hfind, hor, henf]
              rw [transact_of_error _ _ _ hbody]
          | ok v =>
              cases v
              have hbody : updateUserRoleBody userId newRole db =
                  (roleUpdateDB userId newRole db, Except.ok { cu with role := newRole }) := by
                simp [updateUserRoleBody, hfind, hor, henf, roleUpdateDB]
              refine Or.inr ⟨cu, rfl, ?_, ?_⟩
              · show (transact (updateUserRoleBody userId newRole) db).1 = _
                rw [transact_of_ok _ _ _ (by rw [hbody])]
                rw [hbody]
              · intro hno
                unfold enforceOwnershipRules at henf
                rw [if_pos hno] at henf
                cases hopt : db.tenant_users.find? (fun u =>
                    u.tenant_id == cu.tenant_id && u.role == "owner" && !(u.id == userId)) with
                | none => rfl
                | some w =>
                    rw [hopt] at henf
                    simp at henf

/-- `updateUserStatus` leaves the state unchanged or rewrites the status of
the row it found. -/
theorem updateUserStatus_fst_cases (userId : Nat) (newStatus : String) (db : DB) :
    (updateUserStatus userId newStatus db).1 = db ∨
    (updateUserStatus userId newStatus db).1 = statusUpdateDB userId newStatus db := by
  unfold updateUserStatus
  cases hval : isValidStatus newStatus with
  | false => exact Or.inl rfl
  | true =>
    cases hfind : db.tenant_users.find? (fun u => u.id == userId) with
    | none =>
        refine Or.inl ?_
        show (transact (updateUserStatusBody userId newStatus) db).1 = db
        have hbody : (updateUserStatusBody userId newStatus db).2 =
            Except.error (TenantError.userNotFound "User not found") := by
          simp [updateUserStatusBody, hfind]
        rw [transact_of_error _ _ _ hbody]
    | some cu =>
      cases hcond : (newStatus == "suspended" && cu.role == "owner" &&
          db.tenant_users.countP (fun u => u.tenant_id == cu.tenant_id && u.role == "owner" &&
            u.status == "active") == 1) with
      | true =>
          refine Or.inl ?_
          show (transact (updateUserStatusBody userId newStatus) db).1 = db
          have hbody : (updateUserStatusBody userId newStatus db).2 =
              Except.error (TenantError.businessRule "Cannot suspend the last active owner") := by
            simp [updateUserStatusBody, hfind, hcond]
          rw [transact_of_error _ _ _ hbody]
      | false =>
          refine Or.inr ?_
          show (transact (updateUserStatusBody userId newStatus) db).1 = _
          have hbody : updateUserStatusBody userId newStatus db =
              (statusUpdateDB userId newStatus db, Except.ok { cu with status := newStatus }) := by
            simp [updateUserStatusBody, hfind, hcond, statusUpdateDB]
          rw [transact_of_ok _ _ _ (by rw [hbody])]
          rw [hbody]

/-- `deleteUser` leaves the state unchanged or removes the rows with the
given id. -/
theorem deleteUser_fst_cases (userId : Nat) (db : DB) :
    (deleteUser userId db).1 = db ∨ (deleteUser userId db).1 = deleteResultDB userId db := by
  unfold deleteUser
  cases hfind : db.tenant_users.find? (fun u => u.id == userId) with
  | none =>
      refine Or.inl ?_
      have hbody : (deleteUserBody userId db).2 =
          Except.error (TenantError.userNotFound "User not found") := by
        simp [deleteUserBody, hfind]
      rw [transact_of_error _ _ _ hbody]
  | some cu =>
    cases hcond : (cu.role == "owner" &&
        db.tenant_users.countP (fun u =>
          u.tenant_id == cu.tenant_id && u.role == "owner") == 1) with
    | true =>
        refine Or.inl ?_
        have hbody : (deleteUserBody userId db).2 =
            Except.error (TenantError.businessRule "Cannot delete the last owner") := by
          simp [deleteUserBody, hfind, hcond]
        rw [transact_of_error _ _ _ hbody]
    | false =>
        refine Or.inr ?_
        have hbody : deleteUserBody userId db = (deleteResultDB userId db, Except.ok cu) := by
          simp [deleteUserBody, hfind, hcond, deleteResultDB]
        rw [transact_of_ok _ _ _ (by rw [hbody])]
        rw [hbody]

/-- One membership operation preserves well-formedness and the single-owner
invariant. -/
theorem runUserOp_preserves (op : UserOp) (db : DB)
    (hwf : db.UsersWf) (hinv : OwnerAtMostOne db) :
    (runUserOp op db).1.UsersWf ∧ OwnerAtMostOne (runUserOp op db).1 := by
  cases op with
  | create d =>
      show (createUser d db).1.UsersWf ∧ OwnerAtMostOne (createUser d db).1
      rcases createUser_fst_cases d db with h | ⟨henf, h⟩
      · rw [h]; exact ⟨hwf, hinv⟩
      · rw [h]
        exact ⟨usersWf_append db (newUserRow d db) rfl hwf,
          ownerAtMostOne_createUserResult d db henf hinv⟩
  | updateRole userId newRole =>
      show (updateUserRole userId newRole db).1.UsersWf ∧
        OwnerAtMostOne (updateUserRole userId newRole db).1
      rcases updateUserRole_fst_cases userId newRole db with h | ⟨cu, hfind, h, hcond⟩
      · rw [h]; exact ⟨hwf, hinv⟩
      · rw [h]
        refine ⟨usersWf_usersUpdate db userId _ (fun u => rfl) hwf, ?_⟩
        cases hro : (newRole == "owner") with
        | false =>
            intro tid
            exact le_trans (ownerCount_roleUpdate_nonowner_le userId newRole db hro tid)
              (hinv tid)
        | true =>
            have hnr : newRole = "owner" := by simpa using hro
            subst hnr
            exact ownerAtMostOne_roleUpdate_owner userId db cu hwf.1 hfind (hcond rfl) hinv
  | updateStatus userId newStatus =>
      show (updateUserStatus userId newStatus db).1.UsersWf ∧
        OwnerAtMostOne (updateUserStatus userId newStatus db).1
      rcases updateUserStatus_fst_cases userId newStatus db with h | h
      · rw [h]; exact ⟨hwf, hinv⟩
      · rw [h]
        refine ⟨usersWf_usersUpdate db userId _ (fun u => rfl) hwf, fun tid => ?_⟩
        rw [ownerCount_statusUpdate userId newStatus db tid]
        exact hinv tid
  | delete userId =>
      show (deleteUser userId db).1.UsersWf ∧ OwnerAtMostOne (deleteUser userId db).1
      rcases deleteUser_fst_cases userId db with h | h
      · rw [h]; exact ⟨hwf, hinv⟩
      · rw [h]
        exact ⟨usersWf_delete db userId hwf,
          fun tid => le_trans (ownerCount_delete_le userId db tid) (hinv tid)⟩

/-- A whole sequence of membership operations preserves well-formedness and
the single-owner invariant. -/
theorem runUserOps_preserves (ops : List UserOp) (db : DB)
    (hwf : db.UsersWf) (hinv : OwnerAtMostOne db) :
    (runUserOps ops db).UsersWf ∧ OwnerAtMostOne (runUserOps ops db) := by
  induction ops generalizing db with
  | nil => exact ⟨hwf, hinv⟩
  | cons op ops ih =>
      have hstep := runUserOp_preserves op db hwf hinv
      exact ih (runUserOp op db).1 hstep.1 hstep.2

/-- To check the single-owner invariant it is enough to check the tenants
that actually have membership rows. -/
theorem ownerAtMostOne_of_le_one (db : DB)
    (h : ∀ tid ∈ db.tenant_users.map fun u => u.tenant_id, ownerCount db tid ≤ 1) :
    OwnerAtMostOne db := by
  intro tid
  by_cases hmem : tid ∈ db.tenant_users.map fun u => u.tenant_id
  · exact h tid hmem
  · have hz : ownerCount db tid = 0 := by
      show db.tenant_users.countP _ = 0
      rw [List.countP_eq_zero]
      intro u hu hp
      simp only [Bool.and_eq_true, beq_iff_eq] at hp
      exact hmem (List.mem_map.mpr ⟨u, hu, hp.1⟩)
    rw [hz]
    exact Nat.zero_le 1

/-! ## Per-operation rollback lemmas -/

theorem createTenant_fst_of_error (d : TenantData) (oc oe : String) (db : DB)
    (h : (createTenant d oc oe db).2.isOk = false) : (createTenant d oc oe db).1 = db := by
  revert h
  unfold createTenant
  cases validateTenant d with
  | error e => exact fun _ => rfl
  | ok v => exact fun h => transact_fst_of_error _ _ h

theorem createUser_fst_of_error (d : TenantUserData) (db : DB)
    (h : (createUser d db).2.isOk = false) : (createUser d db).1 = db := by
  revert h
  unfold createUser
  cases validateTenantUserOk d with
  | false => exact fun _ => rfl
  | true =>
    cases enforceBusinessRules d db with
    | error e => exact fun _ => rfl
    | ok v => exact fun h => transact_fst_of_error _ _ h

theorem createInvitation_fst_of_error (tenantId : Nat) (email role : String)
    (invitedBy : Option Nat) (token : String) (now : Nat) (db : DB)
    (h : (createInvitation tenantId email role invitedBy token now db).2.isOk = false) :
    (createInvitation tenantId email role invitedBy token now db).1 = db := by
  revert h
  unfold createInvitation
  split
  · exact fun _ => rfl
  · split
    · exact fun _ => rfl
    · split
      · exact fun _ => rfl
      · exact fun h => transact_fst_of_error _ _ h

/-! ## Claim C2 -/

/-- C2: for every tenant id and every callback, after
`withTenantContext(tenantId, callback)` terminates — whether the callback
returned normally or threw — the session-local `app.current_tenant_id` has
been reset to the empty string, and the callback outcome is passed through
unchanged. -/
theorem claim_C2_scope_always_reset {α : Type} (tenantId : String)
    (callback : Session → Session × Except TenantError α) (s : Session) :
    (withTenantContext tenantId callback s).1.current_tenant_id = "" ∧
    (withTenantContext tenantId callback s).2 = (callback (setConfigTenant s tenantId)).2 := by
  rcases h : callback (setConfigTenant s tenantId) with ⟨s2, r⟩
  simp only [setConfigTenant] at h
  simp [withTenantContext, setConfigTenant, h]

/-! ## Claim C4 -/

/-- C4 is false of the code: the permission record of `middleware/tenant.ts`
is keyed by `admin`, `user` and `viewer`, so the stored membership roles
`owner` and `member` fall through to the unknown-role default and receive the
empty permission list, while the claim (and the spec) give `owner` at least
the full admin set and `member` the read-only self-service set.  This theorem
evaluates the table at the failing inputs. -/
theorem claim_C4_owner_and_member_get_no_permissions :
    getRolePermissions "owner" = [] ∧
    getRolePermissions "member" = [] ∧
    getRolePermissions "viewer" = ["tenant:read", "user:read"] ∧
    getRolePermissions "admin" =
      ["tenant:read", "tenant:update", "tenant:delete",
       "user:read", "user:create", "user:update", "user:delete",
       "invitation:create", "invitation:delete",
       "settings:read", "settings:update", "audit:read"] ∧
    getRolePermissions "user" = ["tenant:read", "user:read", "settings:read"] := by
  refine ⟨rfl, rfl, rfl, rfl, rfl⟩

/-! ## Claim C5 -/

/-- C5: under an active tenant scope, the gateway create helper stores the
scope tenant id on the new row — the payload tenant id is immaterial: the
same call with any other payload tenant id is literally the same operation,
and the stored row carries the scope tenant id. -/
theorem claim_C5_create_stamps_scope_tenant (tid : Nat) (args : CreateUserArgs)
    (payloadTid : Option Nat) (db : DB) :
    tenantUsersCreate (some tid) { args with tenant_id := payloadTid } db =
      tenantUsersCreate (some tid) args db ∧
    ∃ db2 row, tenantUsersCreate (some tid) args db = Except.ok (db2, row) ∧
      row.tenant_id = tid ∧ db2.tenant_users = db.tenant_users ++ [row] := by
  exact ⟨rfl, _, _, rfl, rfl, rfl⟩

/-! ## Claim C9 -/

/-- C9: `getTenantContext` looks the membership up with no status filter, so
a suspended or cancelled membership (here the unique membership of the caller
in the tenant) still yields a full `TenantContext` with the role-derived
permissions, while `validateTenantAccess` — which filters on
`status: "active"` — returns null for the same membership. -/
theorem claim_C9_context_ignores_membership_status (db : DB) (slug : String)
    (t : TenantRow) (m : TenantUserRow) (uid : String)
    (ht : db.tenants.find? (fun t2 => t2.slug == slug) = some t)
    (hm : db.tenant_users.find?
      (fun u => u.tenant_id == t.id && u.clerk_user_id == uid) = some m)
    (hs : m.status = "suspended" ∨ m.status = "cancelled")
    (huniq : ∀ u ∈ db.tenant_users, u.tenant_id = t.id → u.clerk_user_id = uid → u = m) :
    getTenantContext slug (some uid) db =
      Except.ok { tenant := t, user := m, permissions := getRolePermissions m.role } ∧
    validateTenantAccess t.id uid db = none := by
  constructor
  · simp [getTenantContext, ht, hm]
  · unfold validateTenantAccess
    rw [List.find?_eq_none]
    intro u hu hpu
    simp only [Bool.and_eq_true, beq_iff_eq] at hpu
    obtain ⟨⟨h1, h2⟩, h3⟩ := hpu
    have hms : m.status = "active" := by rw [← huniq u hu h1 h2]; exact h3
    rcases hs with hs2 | hs2 <;> rw [hs2] at hms <;> simp at hms

/-- Witness for C9 at a concrete database: the sole membership is suspended,
the middleware context still carries it with its role permissions, and
`validateTenantAccess` denies it. -/
theorem claim_C9_witness :
    getTenantContext "acme" (some "ext_1") dbSuspendedMember =
      Except.ok { tenant := acmeTenant, user := suspendedMember,
                  permissions := getRolePermissions suspendedMember.role } ∧
    validateTenantAccess acmeTenant.id "ext_1" dbSuspendedMember = none :=
  claim_C9_context_ignores_membership_status dbSuspendedMember "acme" acmeTenant
    suspendedMember "ext_1" (by decide) (by decide) (Or.inl rfl) (by decide)

/-! ## Claim C10 -/

/-- C10: `suspendTenant` and `activateTenant` are not idempotent: each fails
with a `BusinessRuleViolation` and changes nothing when the tenant is already
in the target status, and each succeeds exactly when the tenant exists and is
not already in the target status. -/
theorem claim_C10_suspend_activate_strict (db : DB) (tid : Nat) :
    (∀ t, db.tenants.find? (fun t2 => t2.id == tid) = some t →
      ((t.status = "suspended" →
          suspendTenant tid db =
            (db, Except.error (TenantError.businessRule "Tenant is already suspended"))) ∧
        (t.status ≠ "suspended" → (suspendTenant tid db).2.isOk = true) ∧
        (t.status = "active" →
          activateTenant tid db =
            (db, Except.error (TenantError.businessRule "Tenant is already active"))) ∧
        (t.status ≠ "active" → (activateTenant tid db).2.isOk = true))) ∧
    (db.tenants.find? (fun t2 => t2.id == tid) = none →
      suspendTenant tid db = (db, Except.error (TenantError.notFound "Tenant not found")) ∧
      activateTenant tid db = (db, Except.error (TenantError.notFound "Tenant not found"))) := by
  constructor
  · intro t hfind
    refine ⟨?_, ?_, ?_, ?_⟩
    · intro hs
      have hbody : (suspendTenantBody tid db).2 =
          Except.error (TenantError.businessRule "Tenant is already suspended") := by
        simp [suspendTenantBody, hfind, hs]
      exact transact_of_error _ _ _ hbody
    · intro hns
      have hb : (t.status == "suspended") = false := beq_eq_false_iff_ne.mpr hns
      have hbody : (suspendTenantBody tid db).2 =
          Except.ok { t with status := "suspended" } := by
        simp [suspendTenantBody, hfind, hb]
      unfold suspendTenant
      rw [transact_of_ok _ _ _ hbody]
      rfl
    · intro hs
      have hbody : (activateTenantBody tid db).2 =
          Except.error (TenantError.businessRule "Tenant is already active") := by
        simp [activateTenantBody, hfind, hs]
      exact transact_of_error _ _ _ hbody
    · intro hna
      have hb : (t.status == "active") = false := beq_eq_false_iff_ne.mpr hna
      have hbody : (activateTenantBody tid db).2 =
          Except.ok { t with status := "active" } := by
        simp [activateTenantBody, hfind, hb]
      unfold activateTenant
      rw [transact_of_ok _ _ _ hbody]
      rfl
  · intro hnone
    constructor
    · have hbody : (suspendTenantBody tid db).2 =
          Except.error (TenantError.notFound "Tenant not found") := by
        simp [suspendTenantBody, hnone]
      exact transact_of_error _ _ _ hbody
    · have hbody : (activateTenantBody tid db).2 =
          Except.error (TenantError.notFound "Tenant not found") := by
        simp [activateTenantBody, hnone]
      exact transact_of_error _ _ _ hbody

/-! ## Claim C1 -/

/-- C1 (amended): over every sequence of `createUser`, `updateUserRole`,
`updateUserStatus` and `deleteUser` operations the per-tenant owner count
stays at most one, and the three guarded mutations fail with a
`BusinessRuleViolation` and leave the state unchanged: deleting the sole
owner, demoting the sole owner when no other admin exists, and suspending
the sole active owner.  The claim's further assertion that the owner count
can never return to 0 once it reached 1 is false of the code — demoting the
sole owner succeeds whenever another admin exists (see the counterexample) —
so the amended claim drops exactly that assertion. -/
theorem claim_C1_single_owner_amended :
    (∀ (ops : List UserOp) (db : DB), db.UsersWf → OwnerAtMostOne db →
      OwnerAtMostOne (runUserOps ops db)) ∧
    (∀ (db : DB) (userId : Nat) (cu : TenantUserRow),
      db.tenant_users.find? (fun u => u.id == userId) = some cu →
      cu.role = "owner" → ownerCount db cu.tenant_id = 1 →
      deleteUser userId db =
        (db, Except.error (TenantError.businessRule "Cannot delete the last owner"))) ∧
    (∀ (db : DB) (userId : Nat) (newRole : String) (cu : TenantUserRow),
      isValidRole newRole = true → (newRole == "owner") = false →
      db.tenant_users.find? (fun u => u.id == userId) = some cu →
      cu.role = "owner" →
      db.tenant_users.countP (fun u => u.tenant_id == cu.tenant_id && u.role == "admin" &&
        !(u.id == userId)) = 0 →
      updateUserRole userId newRole db =
        (db, Except.error (TenantError.businessRule
          "Cannot remove owner role - tenant must have at least one admin"))) ∧
    (∀ (db : DB) (userId : Nat) (cu : TenantUserRow),
      db.tenant_users.find? (fun u => u.id == userId) = some cu →
      cu.role = "owner" →
      db.tenant_users.countP (fun u => u.tenant_id == cu.tenant_id && u.role == "owner" &&
        u.status == "active") = 1 →
      updateUserStatus userId "suspended" db =
        (db, Except.error (TenantError.businessRule
          "Cannot suspend the last active owner"))) := by
  refine ⟨fun ops db hwf hinv => (runUserOps_preserves ops db hwf hinv).2, ?_, ?_, ?_⟩
  · intro db userId cu hfind hrole hcount
    have hcount2 : db.tenant_users.countP (fun u =>
        u.tenant_id == cu.tenant_id && u.role == "owner") = 1 := hcount
    have hbody : (deleteUserBody userId db).2 =
        Except.error (TenantError.businessRule "Cannot delete the last owner") := by
      simp [deleteUserBody, hfind, hrole, hcount2]
    show transact (deleteUserBody userId) db = _
    rw [transact_of_error _ _ _ hbody]
  · intro db userId newRole cu hvalid hnr hfind hrole hadm
    have henf : enforceOwnershipRules db userId newRole cu.tenant_id =
        Except.error (TenantError.businessRule
          "Cannot remove owner role - tenant must have at least one admin") := by
      simp [enforceOwnershipRules, hnr, hadm]
    have hbody : (updateUserRoleBody userId newRole db).2 =
        Except.error (TenantError.businessRule
          "Cannot remove owner role - tenant must have at least one admin") := by
      simp [updateUserRoleBody, hfind, hrole, henf]
    unfold updateUserRole
    rw [hvalid]
    show transact (updateUserRoleBody userId newRole) db = _
    rw [transact_of_error _ _ _ hbody]
  · intro db userId cu hfind hrole hcount
    have hcount2 : db.tenant_users.countP (fun u =>
        u.tenant_id == cu.tenant_id && u.role == "owner" && u.status == "active") = 1 := hcount
    have hbody : (updateUserStatusBody userId "suspended" db).2 =
        Except.error (TenantError.businessRule "Cannot suspend the last active owner") := by
      simp [updateUserStatusBody, hfind, hrole, hcount2]
    show transact (updateUserStatusBody userId "suspended") db = _
    rw [transact_of_error _ _ _ hbody]

/-- Witness for C1 (amended) at concrete databases: the invariant holds after
a concrete operation sequence, and each of the three guarded mutations fails
on the sole owner, leaving the state unchanged. -/
theorem claim_C1_witness :
    OwnerAtMostOne (runUserOps [UserOp.updateStatus 2 "suspended", UserOp.delete 2]
      dbOwnerAdmin) ∧
    deleteUser 1 dbOwnerSolo =
      (dbOwnerSolo, Except.error (TenantError.businessRule "Cannot delete the last owner")) ∧
    updateUserRole 1 "member" dbOwnerSolo =
      (dbOwnerSolo, Except.error (TenantError.businessRule
        "Cannot remove owner role - tenant must have at least one admin")) ∧
    updateUserStatus 1 "suspended" dbOwnerSolo =
      (dbOwnerSolo, Except.error (TenantError.businessRule
        "Cannot suspend the last active owner")) := by
  refine ⟨claim_C1_single_owner_amended.1 _ dbOwnerAdmin ⟨by decide, by decide⟩
      (ownerAtMostOne_of_le_one dbOwnerAdmin (by decide)),
    claim_C1_single_owner_amended.2.1 dbOwnerSolo 1 acmeOwner (by decide) rfl (by decide),
    claim_C1_single_owner_amended.2.2.1 dbOwnerSolo 1 "member" acmeOwner (by decide)
      (by decide) (by decide) rfl (by decide),
    claim_C1_single_owner_amended.2.2.2 dbOwnerSolo 1 acmeOwner (by decide) rfl (by decide)⟩

/-- Counterexample to C1 as stated: with one owner and one admin in the
tenant, demoting the sole owner to `member` succeeds and brings the tenant's
owner count from 1 back to 0 — the code permits an operation that the claim
says is never permitted. -/
theorem claim_C1_counterexample :
    ownerCount dbOwnerAdmin 0 = 1 ∧
    (runUserOp (UserOp.updateRole 1 "member") dbOwnerAdmin).2.isOk = true ∧
    ownerCount (runUserOps [UserOp.updateRole 1 "member"] dbOwnerAdmin) 0 = 0 := by
  decide

/-! ## Claim C8 -/

/-- `find?` skips a prefix in which nothing matches. -/
theorem find?_append_none {α : Type} (p : α → Bool) (l1 l2 : List α)
    (h : l1.find? p = none) : (l1 ++ l2).find? p = l2.find? p := by
  induction l1 with
  | nil => rfl
  | cons a l ih =>
      cases hpa : p a with
      | true => simp [List.find?, hpa] at h
      | false =>
          simp only [List.find?, hpa, List.cons_append] at h ⊢
          exact ih h

/-- C8: creating a tenant with a valid payload and a fresh slug and then
resolving that slug returns the created tenant, and that tenant has exactly
one membership — role `owner`, status `active`, identity and email of the
creator.  The freshness hypotheses say that no existing tenant uses the slug
and no existing membership already sits on the id about to be generated. -/
theorem claim_C8_create_resolve_round_trip (db : DB) (d : TenantData) (oc oe : String)
    (hval : validateTenant d = Except.ok d)
    (hfresh : db.tenants.find? (fun t => t.slug == d.slug) = none)
    (hid : ∀ u ∈ db.tenant_users, u.tenant_id ≠ db.nextId) :
    createTenant d oc oe db =
      (createTenantResultDB d oc oe db,
        Except.ok (newTenantRow d db, newOwnerRow oc oe db)) ∧
    getTenantBySlug d.slug (createTenant d oc oe db).1 =
      Except.ok (newTenantRow d db) ∧
    (newTenantRow d db).slug = d.slug ∧
    ((createTenant d oc oe db).1.tenant_users.filter
      fun u => u.tenant_id == (newTenantRow d db).id) = [newOwnerRow oc oe db] ∧
    (newOwnerRow oc oe db).role = "owner" ∧ (newOwnerRow oc oe db).status = "active" ∧
    (newOwnerRow oc oe db).clerk_user_id = oc ∧ (newOwnerRow oc oe db).email = oe := by
  have hbody : createTenantBody d oc oe db =
      (createTenantResultDB d oc oe db,
        Except.ok (newTenantRow d db, newOwnerRow oc oe db)) := by
    unfold createTenantBody
    rw [hfresh]
    rfl
  have hct : createTenant d oc oe db =
      (createTenantResultDB d oc oe db,
        Except.ok (newTenantRow d db, newOwnerRow oc oe db)) := by
    unfold createTenant
    rw [hval]
    show transact (createTenantBody d oc oe) db = _
    rw [transact_of_ok _ _ _ (by rw [hbody])]
    rw [hbody]
  refine ⟨hct, ?_, rfl, ?_, rfl, rfl, rfl, rfl⟩
  · rw [hct]
    unfold getTenantBySlug
    show (match (createTenantResultDB d oc oe db).tenants.find?
        (fun t => t.slug == d.slug) with
      | none => Except.error (TenantError.notFound "Tenant not found")
      | some t => Except.ok t) = Except.ok (newTenantRow d db)
    rw [show (createTenantResultDB d oc oe db).tenants =
          db.tenants ++ [newTenantRow d db] from rfl]
    rw [find?_append_none _ _ _ hfresh]
    simp [List.find?, newTenantRow]
  · rw [hct]
    show ((createTenantResultDB d oc oe db).tenant_users.filter
      fun u => u.tenant_id == (newTenantRow d db).id) = [newOwnerRow oc oe db]
    rw [show (createTenantResultDB d oc oe db).tenant_users =
          db.tenant_users ++ [newOwnerRow oc oe db] from rfl]
    rw [show (newTenantRow d db).id = db.nextId from rfl]
    rw [List.filter_append]
    have h1 : db.tenant_users.filter (fun u => u.tenant_id == db.nextId) = [] := by
      rw [List.filter_eq_nil_iff]
      intro u hu
      simp [hid u hu]
    rw [h1]
    simp [List.filter, newOwnerRow]

/-- Witness for C8: the theorem applied to the empty database and the
`acme` payload; in particular resolving `acme` after creating it returns the
created tenant and its only membership is the creator-owner. -/
theorem claim_C8_witness :
    getTenantBySlug "acme" (createTenant tenantDataAcme "ext_1" "a@acme.com" emptyDB).1 =
      Except.ok (newTenantRow tenantDataAcme emptyDB) ∧
    ((createTenant tenantDataAcme "ext_1" "a@acme.com" emptyDB).1.tenant_users.filter
      fun u => u.tenant_id == (newTenantRow tenantDataAcme emptyDB).id) =
      [newOwnerRow "ext_1" "a@acme.com" emptyDB] ∧
    (newOwnerRow "ext_1" "a@acme.com" emptyDB).role = "owner" :=
  match claim_C8_create_resolve_round_trip emptyDB tenantDataAcme "ext_1" "a@acme.com"
    (by decide) (by decide) (by decide) with
  | ⟨_, h2, _, h4, h5, _⟩ => ⟨h2, h4, h5⟩

/-! ## Claim C6 -/

/-- C6 is contradicted by the code's own transaction semantics: on a pending
invitation whose expiry is past, `acceptInvitation` updates the invitation
status to `expired` and then throws inside the same `$transaction`, so the
update is rolled back.  Evaluated at the failing input: the call fails, the
transaction body had indeed set the status to `expired` (the intended mark),
yet the committed state is unchanged and the stored status is still
`pending`; a repeated call fails again, and no membership is ever created. -/
theorem claim_C6_expiry_mark_rolled_back :
    (acceptInvitation 1 "ext_9" 10 dbStaleInvitation).2 =
      Except.error (TenantError.businessRule "Invitation has expired") ∧
    ((acceptInvitationBody 1 "ext_9" 10 dbStaleInvitation).1.tenant_invitations.map
      fun i => i.status) = ["expired"] ∧
    (acceptInvitation 1 "ext_9" 10 dbStaleInvitation).1 = dbStaleInvitation ∧
    (((acceptInvitation 1 "ext_9" 10 dbStaleInvitation).1.tenant_invitations.map
      fun i => i.status)) = ["pending"] ∧
    (acceptInvitation 1 "ext_9" 10
        (acceptInvitation 1 "ext_9" 10 dbStaleInvitation).1).2 =
      Except.error (TenantError.businessRule "Invitation has expired") ∧
    (acceptInvitation 1 "ext_9" 10 dbStaleInvitation).1.tenant_users = [] := by
  decide

/-! ## Claim C3 -/

/-- Every access of a scope-tagged trace carries the ambient scope. -/
theorem mem_withScope_scope (scope : String) (tables : List String) :
    ∀ a ∈ withScope scope tables, a.scope = scope := by
  intro a ha
  simp only [withScope, List.mem_map] at ha
  obtain ⟨t, _, rfl⟩ := ha
  rfl

/-- C3 (amended): each operation runs its rule checks and mutation inside one
atomic transaction (rollback: C7), but the tenant scope of the gateway is not
held during it: the services reach the tables through the raw snake-case
delegates, which never issue `set_config`, so every tenant-scoped table
access of `createTenant` and `createUser` runs under the unchanged ambient
session scope — the unset value on a fresh session — and `createUser`
moreover performs its owner- and email-uniqueness checks before the
transaction begins. -/
theorem claim_C3_amended_scope_not_held (scope : String) (db : DB) (d : TenantData)
    (du : TenantUserData) (oc oe : String) :
    (∀ a ∈ createTenantAccesses d scope db, a.scope = scope) ∧
    (∀ a ∈ createUserAccesses du scope db, a.scope = scope) ∧
    ((createTenant d oc oe db).2.isOk = true →
      { table := "tenant_users", scope := scope } ∈ createTenantAccesses d scope db) := by
  refine ⟨mem_withScope_scope scope _, mem_withScope_scope scope _, ?_⟩
  intro hok
  unfold createTenant at hok
  rcases hv : validateTenant d with e | v
  · rw [hv] at hok
    simp [Except.isOk, Except.toBool] at hok
  · rw [hv] at hok
    have hok2 : (transact (createTenantBody v oc oe) db).2.isOk = true := hok
    rcases hf : db.tenants.find? (fun t => t.slug == v.slug) with _ | t
    · simp [createTenantAccesses, createTenantTables, hv, hf, withScope]
    · have hbody : (createTenantBody v oc oe db).2 =
          Except.error (TenantError.businessRule "Tenant slug already exists") := by
        simp [createTenantBody, hf]
      rw [transact_of_error _ _ _ hbody] at hok2
      simp [Except.isOk, Except.toBool] at hok2

/-- Witness for C3 (amended) at a concrete input. -/
theorem claim_C3_amended_witness :
    { table := "tenant_users", scope := "sess" } ∈
      createTenantAccesses tenantDataAcme "sess" emptyDB :=
  (claim_C3_amended_scope_not_held "sess" emptyDB tenantDataAcme
      { tenantId := 0, clerkUserId := "ext_1", email := "a@acme.com" }
      "ext_1" "a@acme.com").2.2 (by decide)

/-- Counterexample to C3 as stated: on a fresh session the tenant setting is
unset (the empty string), `createTenant` succeeds, and its trace contains an
access to the tenant-scoped table `tenant_users` made while the scope is
unset. -/
theorem claim_C3_counterexample :
    (createTenant tenantDataAcme "ext_1" "a@acme.com" emptyDB).2.isOk = true ∧
    { table := "tenant_users", scope := "" } ∈
      createTenantAccesses tenantDataAcme "" emptyDB ∧
    "tenant_users" ∈ tenantScopedTables := by
  decide

/-! ## Claim C7 -/

/-- C7: no multi-step operation partially commits: whenever `createTenant`,
`createUser`, `createInvitation`, `acceptInvitation`, `revokeInvitation` or
`deleteTenant` fails with any error, the persistent state after the call is
exactly the state before it — every mutation of these operations happens
inside one `$transaction`, which rolls back entirely when its callback
throws. -/
theorem claim_C7_failed_ops_roll_back (op : MutOp) (now : Nat) (db : DB)
    (h : (runMutOp op now db).2.isOk = false) : (runMutOp op now db).1 = db := by
  cases op with
  | createTenant d oc oe =>
      refine createTenant_fst_of_error d oc oe db ?_
      rw [← isOk_map (createTenant d oc oe db).2]
      exact h
  | createUser d =>
      refine createUser_fst_of_error d db ?_
      rw [← isOk_map (createUser d db).2]
      exact h
  | createInvitation tid email role invitedBy token =>
      refine createInvitation_fst_of_error tid email role invitedBy token now db ?_
      rw [← isOk_map (createInvitation tid email role invitedBy token now db).2]
      exact h
  | acceptInvitation invId clerk =>
      refine transact_fst_of_error (acceptInvitationBody invId clerk now) db ?_
      show (acceptInvitation invId clerk now db).2.isOk = false
      rw [← isOk_map (acceptInvitation invId clerk now db).2]
      exact h
  | revokeInvitation invId =>
      refine transact_fst_of_error (revokeInvitationBody invId) db ?_
      show (revokeInvitation invId db).2.isOk = false
      rw [← isOk_map (revokeInvitation invId db).2]
      exact h
  | deleteTenant tid =>
      refine transact_fst_of_error (deleteTenantBody tid) db ?_
      show (deleteTenant tid db).2.isOk = false
      rw [← isOk_map (deleteTenant tid db).2]
      exact h

/-- Witness for C7 at a concrete input where the rollback is not vacuous:
accepting a stale invitation mutates the invitation row inside the
transaction body and then throws, and the committed state is nevertheless
exactly the initial one. -/
theorem claim_C7_witness :
    (runMutOp (MutOp.acceptInvitation 1 "ext_9") 10 dbStaleInvitation).2.isOk = false ∧
    (acceptInvitationBody 1 "ext_9" 10 dbStaleInvitation).1 ≠ dbStaleInvitation ∧
    (runMutOp (MutOp.acceptInvitation 1 "ext_9") 10 dbStaleInvitation).1 = dbStaleInvitation :=
  ⟨by decide, by decide,
    claim_C7_failed_ops_roll_back (MutOp.acceptInvitation 1 "ext_9") 10 dbStaleInvitation
      (by decide)⟩

/-- Witness for C10 at concrete databases: activating an active tenant fails
and changes nothing, suspending it succeeds, and suspending an already
suspended tenant fails and changes nothing. -/
theorem claim_C10_witness :
    activateTenant 0 dbOwnerAdmin =
      (dbOwnerAdmin, Except.error (TenantError.businessRule "Tenant is already active")) ∧
    (suspendTenant 0 dbOwnerAdmin).2.isOk = true ∧
    suspendTenant 0 dbSuspendedTenant =
      (dbSuspendedTenant, Except.error (TenantError.businessRule "Tenant is already suspended")) := by
  refine ⟨((claim_C10_suspend_activate_strict dbOwnerAdmin 0).1 acmeTenant (by decide)).2.2.1 rfl,
          ((claim_C10_suspend_activate_strict dbOwnerAdmin 0).1 acmeTenant (by decide)).2.1
            (by decide),
          ((claim_C10_suspend_activate_strict dbSuspendedTenant 0).1
            { id := 0, slug := "acme", name := "Acme Inc", status := "suspended" }
            (by decide)).1 rfl⟩

end SaaS
